import Mathlib

/-!
Verification of the pin lifecycle and interrupt-mode coordination subsystem
(src/src/gpio/pin.rs).

The code under `src/src/gpio/pin.rs` is embedded shallowly: every stateful
operation becomes a function from an explicit `World` (the hardware registers,
the shared event source, the set of running background threads, and fault
oracles for the external collaborators) to a result, a new `World`, and a
trace of observable effects (`Ev`).  The external collaborators (the register
backend `GpioMem`, the shared event source `EventLoop`, and the background
interrupt runner `AsyncInterrupt`) are not part of the sources; they are
modelled from the specification, as marked in their doc comments.
-/

namespace Rppal

/-- Modelled from the spec: `Mode` — "enumerated variant over {Input, Output,
Alternate-function-N}" (the enum itself lives outside pin.rs). -/
inductive Mode where
  | input
  | output
  | alt0
  | alt1
  | alt2
  | alt3
  | alt4
  | alt5
deriving DecidableEq

/-- Modelled from the spec: `Level` — "enumerated {Low, High}". -/
inductive Level where
  | low
  | high
deriving DecidableEq

/-- Modelled from the spec: `Trigger` — "enumerated edge/level specification
{rising, falling, both, none/disabled}". -/
inductive Trigger where
  | disabled
  | risingEdge
  | fallingEdge
  | both
deriving DecidableEq

/-- Modelled from the spec: `PullUpDown` — "enumerated {Off, PullUp, PullDown}". -/
inductive PullUpDown where
  | off
  | pullUp
  | pullDown
deriving DecidableEq

/-- Modelled from the spec: error kinds of §7 — resource-unavailable,
already-configured-conflict, thread-stop-failure.  The concrete `Error` enum
lives outside pin.rs. -/
inductive Error where
  | resourceUnavailable
  | alreadyConfigured
  | threadStopFailure
deriving DecidableEq

/-- Observable effects emitted by the embedded operations, in order. -/
inductive Ev where
  | setMode (pin : Nat) (m : Mode)
  | setPud (pin : Nat) (pud : PullUpDown)
  | syncReg (pin : Nat) (t : Trigger)
  | syncDereg (pin : Nat)
  | stopSignal (tid : Nat)
  | threadExit (tid : Nat)
  | spawn (tid : Nat)
  | panicEv
deriving DecidableEq

/-- Modelled from the spec: the register backend (`GpioMem`, spec §6:
`get_mode`, `set_mode`, `set_pull`, `read_level`, `set_level`), as the
persistent register state per pin index. -/
structure GpioMem where
  modeOf : Nat → Mode
  pudOf : Nat → PullUpDown
  levelOf : Nat → Level

/-- Modelled from the spec: the shared event source's bookkeeping — the
per-pin synchronous trigger registrations (`register`/`deregister`). -/
structure EventLoop where
  triggers : Nat → Option Trigger

/-- The asynchronous-interrupt handle held by an `InputPin`
(`AsyncInterrupt` in the sources; the struct itself lives outside pin.rs).
`tid` identifies the background thread the handle owns. -/
structure AsyncInterrupt where
  tid : Nat
  pin : Nat
  trigger : Trigger
deriving DecidableEq

/-- The global state the embedded operations act on: the register backend, the
shared event source, the poison state of the mutex guarding the event source,
the set of running background threads, and oracles fixing the outcomes of
calls into the modelled external collaborators (`stopErr`: outcome of
`AsyncInterrupt::stop`; `setIntErr`: outcome of the event source's
registration; `spawnErr`: outcome of `AsyncInterrupt::new`; `pollReport`:
what the event source's `poll` reports for given `reset`/`timeout`
arguments). -/
structure World where
  mem : GpioMem
  events : EventLoop
  poisoned : Bool
  running : List Nat
  nextTid : Nat
  stopErr : Option Error
  setIntErr : Option Error
  spawnErr : Option Error
  pollReport : Bool → Option Nat → Except Error (Option (Nat × Level))

/-- Modelled from the spec: register write `set_mode(pin, Mode)`. -/
def GpioMem.set_mode (g : GpioMem) (pin : Nat) (m : Mode) : GpioMem :=
  { g with modeOf := fun n => if n = pin then m else g.modeOf n }

/-- Modelled from the spec: register write `set_pull(pin, PullUpDown)`. -/
def GpioMem.set_pullupdown (g : GpioMem) (pin : Nat) (pud : PullUpDown) : GpioMem :=
  { g with pudOf := fun n => if n = pin then pud else g.pudOf n }

/-- Embedding of `Pin::set_mode`: delegates to the register backend (pin.rs line 52). -/
def Pin.set_mode (w : World) (pin : Nat) (m : Mode) : World × List Ev :=
  ({ w with mem := w.mem.set_mode pin m }, [Ev.setMode pin m])

/-- Embedding of `Pin::set_pullupdown`: delegates to the register backend (pin.rs line 64). -/
def Pin.set_pullupdown (w : World) (pin : Nat) (pud : PullUpDown) : World × List Ev :=
  ({ w with mem := w.mem.set_pullupdown pin pud }, [Ev.setPud pin pud])

/-- Modelled from the spec: `AsyncInterrupt::stop` — "signal cancellation and
wait for the thread to exit before returning" (§4.3), fallible with
"thread-stop-failure (background runner failed to exit cleanly)" (§7).  On an
already-exited thread the wait trivially succeeds.  The fault oracle
`w.stopErr` decides whether the stop of a running thread fails. -/
def AsyncInterrupt.stop (w : World) (h : AsyncInterrupt) :
    Except Error Unit × World × List Ev :=
  if h.tid ∈ w.running then
    match w.stopErr with
    | some e => (.error e, w, [Ev.stopSignal h.tid])
    | none =>
        (.ok (), { w with running := w.running.filter (fun n => n != h.tid) },
         [Ev.stopSignal h.tid, Ev.threadExit h.tid])
  else (.ok (), w, [])

/-- Modelled from the spec: what happens when an `AsyncInterrupt` value is
dropped (its `Drop` impl lives outside pin.rs): per §4.2 "interrupt-thread
cleanup is unconditional", the drop attempts a best-effort stop, discarding
the result (no caller is waiting, §7). -/
def AsyncInterrupt.dropHandle (w : World) (h : AsyncInterrupt) : World × List Ev :=
  let r := AsyncInterrupt.stop w h
  (r.2.1, r.2.2)

/-- Modelled from the spec: `AsyncInterrupt::new` — "spawns a dedicated
background runner bound to the pin's interrupt-capable file descriptor, the
trigger kind, and the callback" (§4.3), fallible.  The fault oracle
`w.spawnErr` decides failure; on success a fresh thread id starts running. -/
def AsyncInterrupt.new (w : World) (pin : Nat) (trigger : Trigger) :
    Except Error AsyncInterrupt × World × List Ev :=
  match w.spawnErr with
  | some e => (.error e, w, [])
  | none =>
      (.ok ⟨w.nextTid, pin, trigger⟩,
       { w with nextTid := w.nextTid + 1, running := w.nextTid :: w.running },
       [Ev.spawn w.nextTid])

/-- Modelled from the spec: the event source's `register(pin, Trigger)`:
"Registering a new trigger for the same pin replaces any previous synchronous
registration" (§4.3); fallible (resource-unavailable, §7) via `w.setIntErr`. -/
def EventLoop.set_interrupt (w : World) (pin : Nat) (trigger : Trigger) :
    Except Error Unit × World × List Ev :=
  match w.setIntErr with
  | some e => (.error e, w, [])
  | none =>
      (.ok (),
       { w with events := ⟨fun n => if n = pin then some trigger else w.events.triggers n⟩ },
       [Ev.syncReg pin trigger])

/-- Modelled from the spec: the event source's `deregister(pin)`:
"deregisters the pin's synchronous trigger from the shared event source;
idempotent (clearing an already-clear pin is not an error)" (§4.3). -/
def EventLoop.clear_interrupt (w : World) (pin : Nat) :
    Except Error Unit × World × List Ev :=
  (.ok (),
   { w with events := ⟨fun n => if n = pin then none else w.events.triggers n⟩ },
   [Ev.syncDereg pin])

/-- Modelled from the spec: the event source's `wait` / `poll` — the oracle
`w.pollReport` fixes what the event source reports for the given `reset` and
`timeout` arguments (an event, a timeout, or an error). -/
def EventLoop.poll (w : World) (reset : Bool) (timeout : Option Nat) :
    Except Error (Option (Nat × Level)) :=
  w.pollReport reset timeout

/-- The `InputPin` struct (pin.rs lines 163-169): the borrowed pin index, the captured
previous mode, the optional asynchronous-interrupt handle, `clear_on_drop`. -/
structure InputPin where
  pin : Nat
  prev_mode : Option Mode
  async_interrupt : Option AsyncInterrupt
  clear_on_drop : Bool
deriving DecidableEq

/-- The `OutputPin` struct (pin.rs lines 271-276). -/
structure OutputPin where
  pin : Nat
  prev_mode : Option Mode
  clear_on_drop : Bool
deriving DecidableEq

/-- The `AltPin` struct (pin.rs lines 297-303). -/
structure AltPin where
  pin : Nat
  mode : Mode
  prev_mode : Option Mode
  clear_on_drop : Bool
deriving DecidableEq

/-- Result of an operation that in Rust may return `Ok`, return `Err`, or
panic (the `lock().unwrap()` calls in pin.rs panic on a poisoned mutex). -/
inductive Outcome (α : Type) where
  | ok (a : α)
  | err (e : Error)
  | panicked
deriving DecidableEq

/-- Embedding of `InputPin::new` (pin.rs lines 172-185): capture the current mode; if it
already is `Input` record `prev_mode = None`, else write `Input` and record
`Some(prev)`; then apply the pull resistor configuration unconditionally. -/
def InputPin.new (w : World) (pin : Nat) (pud_mode : PullUpDown) :
    InputPin × World × List Ev :=
  let m0 := w.mem.modeOf pin
  let step :=
    if m0 = Mode.input then ((none : Option Mode), w, ([] : List Ev))
    else
      let s := Pin.set_mode w pin Mode.input
      (some m0, s.1, s.2)
  let s2 := Pin.set_pullupdown step.2.1 pin pud_mode
  (⟨pin, step.1, none, true⟩, s2.1, step.2.2 ++ s2.2)

/-- Embedding of `OutputPin::new` (pin.rs lines 279-290). -/
def OutputPin.new (w : World) (pin : Nat) : OutputPin × World × List Ev :=
  let m0 := w.mem.modeOf pin
  if m0 = Mode.output then (⟨pin, none, true⟩, w, [])
  else
    let s := Pin.set_mode w pin Mode.output
    (⟨pin, some m0, true⟩, s.1, s.2)

/-- Embedding of `AltPin::new` (pin.rs lines 306-317). -/
def AltPin.new (w : World) (pin : Nat) (mode : Mode) : AltPin × World × List Ev :=
  let m0 := w.mem.modeOf pin
  if m0 = mode then (⟨pin, mode, none, true⟩, w, [])
  else
    let s := Pin.set_mode w pin mode
    (⟨pin, mode, some m0, true⟩, s.1, s.2)

/-- Embedding of `InputPin::clear_async_interrupt` (pin.rs lines 260-266): `take()` the
handle out of the field first; if one was present, call `stop()` on it and
propagate its result with `?`.  The taken local handle is dropped when the
block exits on either path (Rust drop glue), which per the modelled
`AsyncInterrupt` drop performs a best-effort stop. -/
def InputPin.clear_async_interrupt (w : World) (p : InputPin) :
    Except Error Unit × InputPin × World × List Ev :=
  match p.async_interrupt with
  | some interrupt =>
      let p1 : InputPin := { p with async_interrupt := none }
      let s := AsyncInterrupt.stop w interrupt
      let d := AsyncInterrupt.dropHandle s.2.1 interrupt
      (s.1, p1, d.1, s.2.2 ++ d.2)
  | none => (.ok (), p, w, [])

/-- Embedding of `InputPin::clear_interrupt` (pin.rs lines 206-208): lock the shared event
loop (`unwrap` panics if the mutex is poisoned) and deregister this pin. -/
def InputPin.clear_interrupt (w : World) (p : InputPin) :
    Outcome Unit × InputPin × World × List Ev :=
  if w.poisoned then (.panicked, p, w, [Ev.panicEv])
  else
    let s := EventLoop.clear_interrupt w p.pin
    ((match s.1 with
      | .ok _ => Outcome.ok ()
      | .error e => Outcome.err e), p, s.2.1, s.2.2)

/-- Embedding of `InputPin::set_interrupt` (pin.rs lines 198-203):
`self.clear_async_interrupt()?`, then lock the event loop (`unwrap`) and
register the trigger. -/
def InputPin.set_interrupt (w : World) (p : InputPin) (trigger : Trigger) :
    Outcome Unit × InputPin × World × List Ev :=
  let c := InputPin.clear_async_interrupt w p
  match c.1 with
  | .error e => (.err e, c.2.1, c.2.2.1, c.2.2.2)
  | .ok _ =>
      if w.poisoned then (.panicked, c.2.1, c.2.2.1, c.2.2.2 ++ [Ev.panicEv])
      else
        let s := EventLoop.set_interrupt c.2.2.1 p.pin trigger
        ((match s.1 with
          | .ok _ => Outcome.ok ()
          | .error e => Outcome.err e), c.2.1, s.2.1, c.2.2.2 ++ s.2.2)

/-- Embedding of `InputPin::set_async_interrupt` (pin.rs lines 243-258):
`self.clear_interrupt()?`, `self.clear_async_interrupt()?`, then
`AsyncInterrupt::new(...)?` and store the new handle. -/
def InputPin.set_async_interrupt (w : World) (p : InputPin) (trigger : Trigger) :
    Outcome Unit × InputPin × World × List Ev :=
  let c1 := InputPin.clear_interrupt w p
  match c1.1 with
  | .panicked => (.panicked, c1.2.1, c1.2.2.1, c1.2.2.2)
  | .err e => (.err e, c1.2.1, c1.2.2.1, c1.2.2.2)
  | .ok _ =>
      let c2 := InputPin.clear_async_interrupt c1.2.2.1 c1.2.1
      match c2.1 with
      | .error e => (.err e, c2.2.1, c2.2.2.1, c1.2.2.2 ++ c2.2.2.2)
      | .ok _ =>
          let n := AsyncInterrupt.new c2.2.2.1 p.pin trigger
          match n.1 with
          | .error e => (.err e, c2.2.1, n.2.1, c1.2.2.2 ++ c2.2.2.2 ++ n.2.2)
          | .ok h =>
              (.ok (), { c2.2.1 with async_interrupt := some h }, n.2.1,
               c1.2.2.2 ++ c2.2.2.2 ++ n.2.2)

/-- Embedding of `InputPin::poll_interrupt` (pin.rs lines 224-232): lock the event loop
(`unwrap`), call its `poll` with this pin, `reset` and `timeout`; map a
reported event `Some(trigger)` to `Ok(Some(trigger.1))` (the `Level`) and
`None` to `Ok(None)`, propagating errors with `?`. -/
def InputPin.poll_interrupt (w : World) (p : InputPin) (reset : Bool)
    (timeout : Option Nat) : Outcome (Option Level) × InputPin × World × List Ev :=
  if w.poisoned then (.panicked, p, w, [Ev.panicEv])
  else
    match EventLoop.poll w reset timeout with
    | .error e => (.err e, p, w, [])
    | .ok (some trigger) => (.ok (some trigger.2), p, w, [])
    | .ok none => (.ok none, p, w, [])

/-- The `Drop::drop` body generated by `impl_drop!` (pin.rs lines 148-158):
return immediately when `clear_on_drop` is false; otherwise restore
`prev_mode` when it was captured. -/
def dropBody (w : World) (clear_on_drop : Bool) (prev_mode : Option Mode)
    (pin : Nat) : World × List Ev :=
  if clear_on_drop = false then (w, [])
  else
    match prev_mode with
    | some m => Pin.set_mode w pin m
    | none => (w, [])

/-- Dropping an `OutputPin`: just the `impl_drop!` body. -/
def OutputPin.drop (w : World) (p : OutputPin) : World × List Ev :=
  dropBody w p.clear_on_drop p.prev_mode p.pin

/-- Dropping an `AltPin`: just the `impl_drop!` body. -/
def AltPin.drop (w : World) (p : AltPin) : World × List Ev :=
  dropBody w p.clear_on_drop p.prev_mode p.pin

/-- Dropping an `InputPin`: the `impl_drop!` `Drop::drop` body runs first,
then Rust's drop glue drops the `async_interrupt` field (its modelled drop
performs a best-effort stop of the background thread). -/
def InputPin.drop (w : World) (p : InputPin) : World × List Ev :=
  let s := dropBody w p.clear_on_drop p.prev_mode p.pin
  match p.async_interrupt with
  | some h =>
      let d := AsyncInterrupt.dropHandle s.1 h
      (d.1, s.2 ++ d.2)
  | none => (s.1, s.2)

/-- Recognizes a mode-register write in a trace. -/
def isModeWrite : Ev → Bool
  | Ev.setMode _ _ => true
  | _ => false

/-- Recognizes a thread-stop event (a cancellation signal or a thread exit). -/
def isStopEvent : Ev → Bool
  | Ev.stopSignal _ => true
  | Ev.threadExit _ => true
  | _ => false

/-- The sublist of mode-register writes in a trace. -/
def modeWrites (t : List Ev) : List Ev :=
  t.filter isModeWrite

/-- The sublist of thread-stop events (signals and exits) in a trace. -/
def stopEvents (t : List Ev) : List Ev :=
  t.filter isStopEvent

/-- The stored interrupt state of a pin: its asynchronous-interrupt handle
together with its synchronous registration in the shared event source. -/
def interruptStateOf (p : InputPin) (w : World) :
    Option AsyncInterrupt × Option Trigger :=
  (p.async_interrupt, w.events.triggers p.pin)

section Helpers

/-- Stopping a handle whose thread has already exited is a no-op. -/
theorem stop_of_not_running (w : World) (h : AsyncInterrupt)
    (hr : h.tid ∉ w.running) : AsyncInterrupt.stop w h = (.ok (), w, []) := by
  simp [AsyncInterrupt.stop, hr]

/-- Stopping a running thread when the stop oracle reports success. -/
theorem stop_of_running_ok (w : World) (h : AsyncInterrupt)
    (hr : h.tid ∈ w.running) (he : w.stopErr = none) :
    AsyncInterrupt.stop w h =
      (.ok (), { w with running := w.running.filter (fun n => n != h.tid) },
       [Ev.stopSignal h.tid, Ev.threadExit h.tid]) := by
  simp [AsyncInterrupt.stop, hr, he]

/-- Stopping a running thread when the stop oracle reports failure. -/
theorem stop_of_running_err (w : World) (h : AsyncInterrupt) (e : Error)
    (hr : h.tid ∈ w.running) (he : w.stopErr = some e) :
    AsyncInterrupt.stop w h = (.error e, w, [Ev.stopSignal h.tid]) := by
  simp [AsyncInterrupt.stop, hr, he]

/-- A thread id is gone from the running list after filtering it out. -/
theorem tid_not_mem_filter (l : List Nat) (t : Nat) :
    t ∉ l.filter (fun n => n != t) := by
  intro hmem
  rcases List.mem_filter.mp hmem with ⟨_, hcond⟩
  simp at hcond

/-- Calling `clear_async_interrupt` on a pin with no stored handle is a no-op. -/
theorem clear_async_of_none (w : World) (p : InputPin)
    (hp : p.async_interrupt = none) :
    InputPin.clear_async_interrupt w p = (.ok (), p, w, []) := by
  simp [InputPin.clear_async_interrupt, hp]

/-- Calling `clear_async_interrupt` when the stored handle's thread already exited. -/
theorem clear_async_of_not_running (w : World) (p : InputPin)
    (h : AsyncInterrupt) (hh : p.async_interrupt = some h)
    (hr : h.tid ∉ w.running) :
    InputPin.clear_async_interrupt w p =
      (.ok (), { p with async_interrupt := none }, w, []) := by
  simp [InputPin.clear_async_interrupt, hh, AsyncInterrupt.dropHandle,
        stop_of_not_running w h hr]

/-- Calling `clear_async_interrupt` when the stop of the running thread succeeds. -/
theorem clear_async_of_running_ok (w : World) (p : InputPin)
    (h : AsyncInterrupt) (hh : p.async_interrupt = some h)
    (hr : h.tid ∈ w.running) (he : w.stopErr = none) :
    InputPin.clear_async_interrupt w p =
      (.ok (), { p with async_interrupt := none },
       { w with running := w.running.filter (fun n => n != h.tid) },
       [Ev.stopSignal h.tid, Ev.threadExit h.tid]) := by
  have h2 : h.tid ∉ w.running.filter (fun n => n != h.tid) :=
    tid_not_mem_filter w.running h.tid
  have h3 := stop_of_not_running
    { w with running := w.running.filter (fun n => n != h.tid) } h h2
  simp [InputPin.clear_async_interrupt, hh, AsyncInterrupt.dropHandle,
        stop_of_running_ok w h hr he, h3]

/-- Calling `clear_async_interrupt` when the stop of the running thread fails: the
error propagates, the handle is discarded (it was taken out of the field
first), and the thread keeps running. -/
theorem clear_async_of_running_err (w : World) (p : InputPin)
    (h : AsyncInterrupt) (e : Error) (hh : p.async_interrupt = some h)
    (hr : h.tid ∈ w.running) (he : w.stopErr = some e) :
    InputPin.clear_async_interrupt w p =
      (.error e, { p with async_interrupt := none }, w,
       [Ev.stopSignal h.tid, Ev.stopSignal h.tid]) := by
  simp [InputPin.clear_async_interrupt, hh, AsyncInterrupt.dropHandle,
        stop_of_running_err w h e hr he]

/-- After `clear_async_interrupt` the stored handle is always `none`. -/
theorem clear_async_field_none (w : World) (p : InputPin) :
    (InputPin.clear_async_interrupt w p).2.1.async_interrupt = none := by
  rcases hp : p.async_interrupt with _ | h
  · rw [clear_async_of_none w p hp]
    exact hp
  · simp [InputPin.clear_async_interrupt, hp]

/-- Calling `clear_interrupt` when the event-loop mutex is not poisoned: deregister
this pin from the shared event source. -/
theorem clear_interrupt_of_unpoisoned (w : World) (p : InputPin)
    (hp : w.poisoned = false) :
    InputPin.clear_interrupt w p =
      (Outcome.ok (), p,
       { w with events := ⟨fun n => if n = p.pin then none else w.events.triggers n⟩ },
       [Ev.syncDereg p.pin]) := by
  simp [InputPin.clear_interrupt, EventLoop.clear_interrupt, hp]

/-- Calling `clear_interrupt` on a poisoned mutex panics through `unwrap`. -/
theorem clear_interrupt_of_poisoned (w : World) (p : InputPin)
    (hp : w.poisoned = true) :
    InputPin.clear_interrupt w p = (Outcome.panicked, p, w, [Ev.panicEv]) := by
  simp [InputPin.clear_interrupt, hp]

/-- The `impl_drop!` body never touches the running-thread list. -/
theorem dropBody_running (w : World) (b : Bool) (pm : Option Mode) (pin : Nat) :
    (dropBody w b pm pin).1.running = w.running := by
  rcases b <;> rcases pm <;> simp [dropBody, Pin.set_mode]

/-- The `impl_drop!` body never touches the stop oracle. -/
theorem dropBody_stopErr (w : World) (b : Bool) (pm : Option Mode) (pin : Nat) :
    (dropBody w b pm pin).1.stopErr = w.stopErr := by
  rcases b <;> rcases pm <;> simp [dropBody, Pin.set_mode]

/-- The `impl_drop!` body emits no thread-stop events. -/
theorem dropBody_stopEvents (w : World) (b : Bool) (pm : Option Mode) (pin : Nat) :
    stopEvents (dropBody w b pm pin).2 = [] := by
  rcases b <;> rcases pm <;>
    simp [dropBody, Pin.set_mode, stopEvents, isStopEvent]

end Helpers

section Instances

/-- A register bank with every pin in `Output` mode. -/
def memX : GpioMem :=
  ⟨fun _ => Mode.output, fun _ => PullUpDown.off, fun _ => Level.low⟩

/-- A live asynchronous-interrupt handle for pin 4 owning thread 7. -/
def handle7 : AsyncInterrupt := ⟨7, 4, Trigger.both⟩

/-- A healthy world: unpoisoned mutex, thread 7 running, every external call
succeeding, no pending event to report. -/
def wOk : World :=
  { mem := memX, events := ⟨fun _ => none⟩, poisoned := false, running := [7],
    nextTid := 8, stopErr := none, setIntErr := none, spawnErr := none,
    pollReport := fun _ _ => .ok none }

/-- Like `wOk` but the background runner fails to stop cleanly. -/
def wStopFail : World := { wOk with stopErr := some Error.threadStopFailure }

/-- Like `wOk` but the event-loop mutex is poisoned. -/
def wPoison : World := { wOk with poisoned := true }

/-- Like `wOk` but the event source reports a high-level trigger on pin 4. -/
def wEvent : World :=
  { wOk with pollReport := fun _ _ => .ok (some (4, Level.high)) }

/-- An `InputPin` on pin 4 holding the live handle `handle7`. -/
def pinLive : InputPin := ⟨4, some Mode.output, some handle7, true⟩

/-- An `InputPin` on pin 4 with no interrupt configured. -/
def pinPlain : InputPin := ⟨4, none, none, true⟩

end Instances

section ViewConstruction

/-- Construction behavior of `InputPin::new` (pin.rs lines 172-185). -/
theorem inputPinNew_spec (w : World) (pin : Nat) (pud : PullUpDown) :
    ((InputPin.new w pin pud).1.prev_mode
      = if w.mem.modeOf pin = Mode.input then none else some (w.mem.modeOf pin))
  ∧ (modeWrites (InputPin.new w pin pud).2.2
      = if w.mem.modeOf pin = Mode.input then [] else [Ev.setMode pin Mode.input])
  ∧ (InputPin.new w pin pud).2.1.mem.modeOf pin = Mode.input := by
  by_cases hi : w.mem.modeOf pin = Mode.input
  · simp [InputPin.new, Pin.set_pullupdown, GpioMem.set_pullupdown, modeWrites,
          isModeWrite, hi]
  · simp [InputPin.new, Pin.set_mode, Pin.set_pullupdown, GpioMem.set_mode,
          GpioMem.set_pullupdown, modeWrites, isModeWrite, hi]

/-- Construction behavior of `OutputPin::new` (pin.rs lines 279-290). -/
theorem outputPinNew_spec (w : World) (pin : Nat) :
    ((OutputPin.new w pin).1.prev_mode
      = if w.mem.modeOf pin = Mode.output then none else some (w.mem.modeOf pin))
  ∧ (modeWrites (OutputPin.new w pin).2.2
      = if w.mem.modeOf pin = Mode.output then [] else [Ev.setMode pin Mode.output])
  ∧ (OutputPin.new w pin).2.1.mem.modeOf pin = Mode.output := by
  by_cases ho : w.mem.modeOf pin = Mode.output
  · simp [OutputPin.new, modeWrites, isModeWrite, ho]
  · simp [OutputPin.new, Pin.set_mode, GpioMem.set_mode, modeWrites,
          isModeWrite, ho]

/-- Construction behavior of `AltPin::new` (pin.rs lines 306-317). -/
theorem altPinNew_spec (w : World) (pin : Nat) (target : Mode) :
    ((AltPin.new w pin target).1.prev_mode
      = if w.mem.modeOf pin = target then none else some (w.mem.modeOf pin))
  ∧ (modeWrites (AltPin.new w pin target).2.2
      = if w.mem.modeOf pin = target then [] else [Ev.setMode pin target])
  ∧ (AltPin.new w pin target).2.1.mem.modeOf pin = target := by
  by_cases ha : w.mem.modeOf pin = target
  · simp [AltPin.new, modeWrites, isModeWrite, ha]
  · simp [AltPin.new, Pin.set_mode, GpioMem.set_mode, modeWrites,
          isModeWrite, ha]

end ViewConstruction

/-- C4: for every view construction (`InputPin`, `OutputPin`, `AltPin`) on a
pin whose current mode equals the view's target mode, `prev_mode` is `None`
and no mode write is performed; when the current mode differs from the
target, the pin's mode is set to the target and `prev_mode = Some(m0)`. -/
theorem c4_view_construction (w : World) (pin : Nat) (pud : PullUpDown)
    (target : Mode) :
    ((InputPin.new w pin pud).1.prev_mode
      = if w.mem.modeOf pin = Mode.input then none else some (w.mem.modeOf pin))
  ∧ (modeWrites (InputPin.new w pin pud).2.2
      = if w.mem.modeOf pin = Mode.input then [] else [Ev.setMode pin Mode.input])
  ∧ (InputPin.new w pin pud).2.1.mem.modeOf pin = Mode.input
  ∧ ((OutputPin.new w pin).1.prev_mode
      = if w.mem.modeOf pin = Mode.output then none else some (w.mem.modeOf pin))
  ∧ (modeWrites (OutputPin.new w pin).2.2
      = if w.mem.modeOf pin = Mode.output then [] else [Ev.setMode pin Mode.output])
  ∧ (OutputPin.new w pin).2.1.mem.modeOf pin = Mode.output
  ∧ ((AltPin.new w pin target).1.prev_mode
      = if w.mem.modeOf pin = target then none else some (w.mem.modeOf pin))
  ∧ (modeWrites (AltPin.new w pin target).2.2
      = if w.mem.modeOf pin = target then [] else [Ev.setMode pin target])
  ∧ (AltPin.new w pin target).2.1.mem.modeOf pin = target :=
  ⟨(inputPinNew_spec w pin pud).1, (inputPinNew_spec w pin pud).2.1,
   (inputPinNew_spec w pin pud).2.2, (outputPinNew_spec w pin).1,
   (outputPinNew_spec w pin).2.1, (outputPinNew_spec w pin).2.2,
   (altPinNew_spec w pin target).1, (altPinNew_spec w pin target).2.1,
   (altPinNew_spec w pin target).2.2⟩

/-- C9: for every `InputPin` construction the requested pull-up/pull-down
configuration is applied to the pin unconditionally — both when the mode was
changed to `Input` and when it already was `Input`. -/
theorem c9_pud_unconditional (w : World) (pin : Nat) (pud : PullUpDown) :
    (InputPin.new w pin pud).2.1.mem.pudOf pin = pud
  ∧ Ev.setPud pin pud ∈ (InputPin.new w pin pud).2.2 := by
  by_cases hi : w.mem.modeOf pin = Mode.input <;>
    simp [InputPin.new, Pin.set_mode, Pin.set_pullupdown, GpioMem.set_mode,
          GpioMem.set_pullupdown, hi]

/-- C5: for every view drop (the `impl_drop!` `Drop::drop` body shared by
`InputPin`, `OutputPin` and `AltPin`): when `clear_on_drop` is false nothing
happens and the mode is left unchanged (for `InputPin` the register state is
unchanged even including the field drop of the async handle); when
`clear_on_drop` is true and `prev_mode = Some(m)` the mode is restored to
exactly the captured `m`; when `prev_mode = None` no mode write happens. -/
theorem c5_drop_restoration (w : World) (pin : Nat) (m : Mode)
    (pm : Option Mode) (ai : Option AsyncInterrupt) :
    dropBody w false pm pin = (w, [])
  ∧ dropBody w true none pin = (w, [])
  ∧ (dropBody w true (some m) pin).1.mem.modeOf pin = m
  ∧ (dropBody w true (some m) pin).2 = [Ev.setMode pin m]
  ∧ (InputPin.drop w ⟨pin, pm, ai, false⟩).1.mem = w.mem
  ∧ modeWrites (InputPin.drop w ⟨pin, pm, ai, false⟩).2 = [] := by
  refine ⟨by simp [dropBody], by simp [dropBody],
    by simp [dropBody, Pin.set_mode, GpioMem.set_mode],
    by simp [dropBody, Pin.set_mode], ?_, ?_⟩
  · rcases ai with _ | h
    · simp [InputPin.drop, dropBody]
    · by_cases hr : h.tid ∈ w.running
      · rcases he : w.stopErr with _ | e
        · simp [InputPin.drop, dropBody, AsyncInterrupt.dropHandle,
                stop_of_running_ok w h hr he]
        · simp [InputPin.drop, dropBody, AsyncInterrupt.dropHandle,
                stop_of_running_err w h e hr he]
      · simp [InputPin.drop, dropBody, AsyncInterrupt.dropHandle,
              stop_of_not_running w h hr]
  · rcases ai with _ | h
    · simp [InputPin.drop, dropBody, modeWrites, isModeWrite]
    · by_cases hr : h.tid ∈ w.running
      · rcases he : w.stopErr with _ | e
        · simp [InputPin.drop, dropBody, AsyncInterrupt.dropHandle,
                stop_of_running_ok w h hr he, modeWrites, isModeWrite]
        · simp [InputPin.drop, dropBody, AsyncInterrupt.dropHandle,
                stop_of_running_err w h e hr he, modeWrites, isModeWrite]
      · simp [InputPin.drop, dropBody, AsyncInterrupt.dropHandle,
              stop_of_not_running w h hr, modeWrites, isModeWrite]

/-- C10: after every call to `clear_async_interrupt`, whether it returned
`Ok` or `Err`, the stored handle is `None` (it is taken out of the field
before `stop()` is attempted), and an immediately following call is a
successful no-op. -/
theorem c10_clear_async_discards_handle (w : World) (p : InputPin) :
    (InputPin.clear_async_interrupt w p).2.1.async_interrupt = none
  ∧ InputPin.clear_async_interrupt (InputPin.clear_async_interrupt w p).2.2.1
      (InputPin.clear_async_interrupt w p).2.1
    = (Except.ok (), (InputPin.clear_async_interrupt w p).2.1,
       (InputPin.clear_async_interrupt w p).2.2.1, []) :=
  ⟨clear_async_field_none w p,
   clear_async_of_none _ _ (clear_async_field_none w p)⟩

/-- C8: `clear_interrupt` and `clear_async_interrupt` are idempotent — the
second of two calls in a row returns `Ok` and changes neither the event
source registrations, the registers, nor the running threads; calling either
on a pin with no corresponding active interrupt succeeds without effects.
(The mutex must not be poisoned; a poisoned mutex panics, see C6.) -/
theorem c8_clear_idempotent (w : World) (p : InputPin)
    (hp : w.poisoned = false) :
    ((InputPin.clear_interrupt (InputPin.clear_interrupt w p).2.2.1
        (InputPin.clear_interrupt w p).2.1).1 = Outcome.ok ())
  ∧ (∀ n, (InputPin.clear_interrupt (InputPin.clear_interrupt w p).2.2.1
        (InputPin.clear_interrupt w p).2.1).2.2.1.events.triggers n
      = (InputPin.clear_interrupt w p).2.2.1.events.triggers n)
  ∧ ((InputPin.clear_interrupt (InputPin.clear_interrupt w p).2.2.1
        (InputPin.clear_interrupt w p).2.1).2.2.1.mem
      = (InputPin.clear_interrupt w p).2.2.1.mem)
  ∧ ((InputPin.clear_interrupt (InputPin.clear_interrupt w p).2.2.1
        (InputPin.clear_interrupt w p).2.1).2.2.1.running
      = (InputPin.clear_interrupt w p).2.2.1.running)
  ∧ ((InputPin.clear_interrupt w p).1 = Outcome.ok ())
  ∧ (InputPin.clear_async_interrupt (InputPin.clear_async_interrupt w p).2.2.1
        (InputPin.clear_async_interrupt w p).2.1
      = (Except.ok (), (InputPin.clear_async_interrupt w p).2.1,
         (InputPin.clear_async_interrupt w p).2.2.1, []))
  ∧ (InputPin.clear_async_interrupt w { p with async_interrupt := none }
      = (Except.ok (), { p with async_interrupt := none }, w, [])) := by
  have h1 := clear_interrupt_of_unpoisoned w p hp
  have hp1 : ({ w with events :=
      ⟨fun n => if n = p.pin then none else w.events.triggers n⟩ } : World).poisoned
      = false := hp
  have h2 := clear_interrupt_of_unpoisoned
    { w with events := ⟨fun n => if n = p.pin then none else w.events.triggers n⟩ }
    p hp1
  refine ⟨?_, ?_, ?_, ?_, ?_,
    clear_async_of_none _ _ (clear_async_field_none w p),
    clear_async_of_none w { p with async_interrupt := none } rfl⟩
  · simp [h1, h2]
  · intro n
    simp only [h1, h2]
    by_cases hn : n = p.pin <;> simp [hn]
  · simp [h1, h2]
  · simp [h1, h2]
  · simp [h1]

/-- C7: `poll_interrupt(reset, timeout)` passes `reset` and `timeout` through
to the shared event source's poll; when the event source reports a trigger
event the call returns `Ok(Some(level))` with the observed level, and when it
reports a timeout the call returns `Ok(None)`.  (The blocking-duration bound
itself is part of the modelled event-source contract, spec §6.) -/
theorem c7_poll_reports_event_or_timeout (w : World) (p : InputPin)
    (reset : Bool) (timeout : Option Nat) (q : Nat) (l : Level)
    (hp : w.poisoned = false) :
    (w.pollReport reset timeout = .ok (some (q, l)) →
      InputPin.poll_interrupt w p reset timeout = (Outcome.ok (some l), p, w, []))
  ∧ (w.pollReport reset timeout = .ok none →
      InputPin.poll_interrupt w p reset timeout = (Outcome.ok none, p, w, [])) := by
  constructor <;> intro hrep <;>
    simp [InputPin.poll_interrupt, EventLoop.poll, hp, hrep]

/-- Witness for C7 at concrete inputs: an event world reporting a high level
on pin 4, and the quiet world timing out. -/
theorem c7_witness :
    InputPin.poll_interrupt wEvent pinPlain true (some 0)
      = (Outcome.ok (some Level.high), pinPlain, wEvent, [])
  ∧ InputPin.poll_interrupt wOk pinPlain true (some 0)
      = (Outcome.ok none, pinPlain, wOk, []) :=
  ⟨(c7_poll_reports_event_or_timeout wEvent pinPlain true (some 0) 4 Level.high
      rfl).1 rfl,
   (c7_poll_reports_event_or_timeout wOk pinPlain true (some 0) 4 Level.high
      rfl).2 rfl⟩

section DropLemmas

/-- Splitting `InputPin.drop` with a stored handle into the `impl_drop!` body
and the field drop of the handle. -/
theorem drop_trace_eq (w : World) (p : InputPin) (h : AsyncInterrupt)
    (hh : p.async_interrupt = some h) :
    (InputPin.drop w p).2
      = (dropBody w p.clear_on_drop p.prev_mode p.pin).2
        ++ (AsyncInterrupt.stop (dropBody w p.clear_on_drop p.prev_mode p.pin).1 h).2.2
  ∧ (InputPin.drop w p).1
      = (AsyncInterrupt.stop (dropBody w p.clear_on_drop p.prev_mode p.pin).1 h).2.1 := by
  simp [InputPin.drop, hh, AsyncInterrupt.dropHandle]

/-- The map `stopEvents` distributes over trace concatenation. -/
theorem stopEvents_append (a b : List Ev) :
    stopEvents (a ++ b) = stopEvents a ++ stopEvents b := by
  simp [stopEvents]

/-- Every thread-stop event of a trace is an event of the trace. -/
theorem mem_of_mem_stopEvents (a : Ev) (t : List Ev) (hm : a ∈ stopEvents t) :
    a ∈ t :=
  (List.mem_filter.mp hm).1

/-- The thread-stop events of dropping an `InputPin` with a stored handle
depend only on the handle and on the world's thread state — in particular not
on `clear_on_drop` or `prev_mode`. -/
theorem drop_stopEvents (w : World) (p : InputPin) (h : AsyncInterrupt)
    (hh : p.async_interrupt = some h) :
    stopEvents (InputPin.drop w p).2 =
      if h.tid ∈ w.running then
        match w.stopErr with
        | some _ => [Ev.stopSignal h.tid]
        | none => [Ev.stopSignal h.tid, Ev.threadExit h.tid]
      else [] := by
  rw [(drop_trace_eq w p h hh).1, stopEvents_append, dropBody_stopEvents]
  by_cases hr : h.tid ∈ w.running
  · have hr1 : h.tid ∈ (dropBody w p.clear_on_drop p.prev_mode p.pin).1.running := by
      rw [dropBody_running]; exact hr
    rcases he : w.stopErr with _ | e
    · have he1 : (dropBody w p.clear_on_drop p.prev_mode p.pin).1.stopErr = none := by
        rw [dropBody_stopErr]; exact he
      rw [stop_of_running_ok _ h hr1 he1]
      simp [stopEvents, isStopEvent, hr]
    · have he1 : (dropBody w p.clear_on_drop p.prev_mode p.pin).1.stopErr = some e := by
        rw [dropBody_stopErr]; exact he
      rw [stop_of_running_err _ h e hr1 he1]
      simp [stopEvents, isStopEvent, hr]
  · have hr1 : h.tid ∉ (dropBody w p.clear_on_drop p.prev_mode p.pin).1.running := by
      rw [dropBody_running]; exact hr
    rw [stop_of_not_running _ h hr1]
    simp [stopEvents, hr]

end DropLemmas

/-- C1 counterexample: the claim's conjunct "an asynchronous-interrupt handle
is never dropped or replaced while its thread is still running" is false.  In
the world `wStopFail` (where `AsyncInterrupt::stop` fails, an error kind the
spec itself names) `clear_async_interrupt` on `pinLive` — the path taken by
`set_interrupt`, `set_async_interrupt` and teardown — returns the error, yet
the handle has been taken out of the field and discarded while thread 7 is
still running. -/
theorem c1_counterexample :
    (InputPin.clear_async_interrupt wStopFail pinLive).1
        = Except.error Error.threadStopFailure
  ∧ (InputPin.clear_async_interrupt wStopFail pinLive).2.1.async_interrupt = none
  ∧ 7 ∈ (InputPin.clear_async_interrupt wStopFail pinLive).2.2.1.running := by
  refine ⟨rfl, rfl, ?_⟩
  decide

/-- C1 (amended): dropping an `InputPin` with a stored asynchronous-interrupt
handle always attempts to stop the handle's thread (a stop signal is in the
drop's trace whenever the thread is running), and when the stop succeeds the
thread has exited before drop returns; this happens regardless of
`clear_on_drop` (the stop events of the drop are identical for both values).
However, when the stop fails the handle is still discarded while its thread
may be running (see the counterexample). -/
theorem c1_drop_always_stops (w : World) (p : InputPin) (h : AsyncInterrupt)
    (hh : p.async_interrupt = some h) :
    (h.tid ∈ w.running → Ev.stopSignal h.tid ∈ (InputPin.drop w p).2)
  ∧ (w.stopErr = none → h.tid ∉ (InputPin.drop w p).1.running)
  ∧ (∀ b : Bool, stopEvents (InputPin.drop w { p with clear_on_drop := b }).2
      = stopEvents (InputPin.drop w p).2) := by
  refine ⟨?_, ?_, ?_⟩
  · intro hr
    apply mem_of_mem_stopEvents
    rw [drop_stopEvents w p h hh]
    rcases w.stopErr with _ | e <;> simp [hr]
  · intro he
    rw [(drop_trace_eq w p h hh).2]
    have he1 : (dropBody w p.clear_on_drop p.prev_mode p.pin).1.stopErr = none := by
      rw [dropBody_stopErr]; exact he
    by_cases hr1 : h.tid ∈ (dropBody w p.clear_on_drop p.prev_mode p.pin).1.running
    · rw [stop_of_running_ok _ h hr1 he1]
      exact tid_not_mem_filter _ _
    · rw [stop_of_not_running _ h hr1]
      exact hr1
  · intro b
    rw [drop_stopEvents w { p with clear_on_drop := b } h hh,
        drop_stopEvents w p h hh]

/-- Witness for C1 (amended) at a concrete input: the healthy world and the
pin with the live handle on thread 7. -/
theorem c1_witness :
    Ev.stopSignal 7 ∈ (InputPin.drop wOk pinLive).2
  ∧ 7 ∉ (InputPin.drop wOk pinLive).1.running := by
  have h := c1_drop_always_stops wOk pinLive handle7 rfl
  exact ⟨h.1 (by decide), h.2.1 rfl⟩

/-- C6 counterexample: the configuration operations do not return a `Result`
in *every* reachable state — pin.rs locks the shared event loop with
`lock().unwrap()`, which panics when the mutex is poisoned (a thread panicked
while holding it).  At the concrete poisoned world, `set_interrupt` panics
instead of returning a failure indication. -/
theorem c6_counterexample :
    (InputPin.set_interrupt wPoison pinPlain Trigger.both).1 = Outcome.panicked := by
  rfl

/-- C6 (amended): provided the shared event-loop mutex is not poisoned, every
configuration operation (`set_interrupt`, `clear_interrupt`,
`set_async_interrupt`, `poll_interrupt`) returns a failure indication rather
than panicking; `clear_async_interrupt` never panics at all (it returns
`Except` and never touches the mutex). -/
theorem c6_no_panic_when_unpoisoned (w : World) (p : InputPin)
    (trigger : Trigger) (reset : Bool) (timeout : Option Nat)
    (hp : w.poisoned = false) :
    (InputPin.set_interrupt w p trigger).1 ≠ Outcome.panicked
  ∧ (InputPin.clear_interrupt w p).1 ≠ Outcome.panicked
  ∧ (InputPin.set_async_interrupt w p trigger).1 ≠ Outcome.panicked
  ∧ (InputPin.poll_interrupt w p reset timeout).1 ≠ Outcome.panicked := by
  refine ⟨?_, ?_, ?_, ?_⟩
  · rcases hh : p.async_interrupt with _ | h
    · rcases hs : w.setIntErr with _ | e <;>
        simp [InputPin.set_interrupt, clear_async_of_none w p hh, hp,
              EventLoop.set_interrupt, hs]
    · by_cases hr : h.tid ∈ w.running
      · rcases he : w.stopErr with _ | e
        · rcases hs : w.setIntErr with _ | e2 <;>
            simp [InputPin.set_interrupt, clear_async_of_running_ok w p h hh hr he,
                  hp, EventLoop.set_interrupt, hs]
        · simp [InputPin.set_interrupt, clear_async_of_running_err w p h e hh hr he]
      · rcases hs : w.setIntErr with _ | e <;>
          simp [InputPin.set_interrupt, clear_async_of_not_running w p h hh hr,
                hp, EventLoop.set_interrupt, hs]
  · rw [clear_interrupt_of_unpoisoned w p hp]
    simp
  · have h1 := clear_interrupt_of_unpoisoned w p hp
    rcases hh : p.async_interrupt with _ | h
    · rcases hsp : w.spawnErr with _ | e <;>
        simp [InputPin.set_async_interrupt, h1, InputPin.clear_async_interrupt,
              hh, AsyncInterrupt.new, hsp]
    · by_cases hr : h.tid ∈ w.running
      · rcases he : w.stopErr with _ | e
        · rcases hsp : w.spawnErr with _ | e2 <;>
            simp [InputPin.set_async_interrupt, h1, InputPin.clear_async_interrupt,
                  hh, AsyncInterrupt.stop, AsyncInterrupt.dropHandle, hr, he,
                  AsyncInterrupt.new, hsp, tid_not_mem_filter]
        · simp [InputPin.set_async_interrupt, h1, InputPin.clear_async_interrupt,
                hh, AsyncInterrupt.stop, AsyncInterrupt.dropHandle, hr, he]
      · rcases hsp : w.spawnErr with _ | e <;>
          simp [InputPin.set_async_interrupt, h1, InputPin.clear_async_interrupt,
                hh, AsyncInterrupt.stop, AsyncInterrupt.dropHandle, hr,
                AsyncInterrupt.new, hsp]
  · rcases hrep : w.pollReport reset timeout with e | opt
    · simp [InputPin.poll_interrupt, EventLoop.poll, hp, hrep]
    · rcases opt with _ | tr <;>
        simp [InputPin.poll_interrupt, EventLoop.poll, hp, hrep]

/-- Witness for C6 (amended) at a concrete input: the healthy world. -/
theorem c6_witness :
    (InputPin.set_interrupt wOk pinLive Trigger.both).1 ≠ Outcome.panicked
  ∧ (InputPin.clear_interrupt wOk pinLive).1 ≠ Outcome.panicked
  ∧ (InputPin.set_async_interrupt wOk pinLive Trigger.both).1 ≠ Outcome.panicked
  ∧ (InputPin.poll_interrupt wOk pinLive true (some 0)).1 ≠ Outcome.panicked :=
  c6_no_panic_when_unpoisoned wOk pinLive Trigger.both true (some 0) rfl

/-- C3 counterexample: the claim's conjunct "the pin is left in its last
known-good interrupt state" is false.  In `wStopFail`, `set_interrupt` on
`pinLive` fails while stopping the previous asynchronous thread: the error is
returned and nothing new is armed, but the pin's interrupt state changes from
`(some handle7, none)` to `(none, none)` — the handle was taken out and
discarded — while thread 7 is still running. -/
theorem c3_counterexample :
    (InputPin.set_interrupt wStopFail pinLive Trigger.both).1
      = Outcome.err Error.threadStopFailure
  ∧ interruptStateOf pinLive wStopFail = (some handle7, none)
  ∧ interruptStateOf (InputPin.set_interrupt wStopFail pinLive Trigger.both).2.1
      (InputPin.set_interrupt wStopFail pinLive Trigger.both).2.2.1
      = (none, none)
  ∧ 7 ∈ (InputPin.set_interrupt wStopFail pinLive Trigger.both).2.2.1.running := by
  refine ⟨rfl, rfl, rfl, ?_⟩
  decide

/-- C3 (amended): when stopping the previously active asynchronous thread
fails during `set_interrupt` or `set_async_interrupt`, the error is returned
to the caller and the requested new mechanism is not armed — no synchronous
registration is made (for `set_interrupt` the registrations are untouched)
and no new thread is spawned — but the stored handle is discarded, so the pin
is left with no stored interrupt mechanism rather than in its previous
asynchronous state. -/
theorem c3_fail_closed (w : World) (p : InputPin) (trigger : Trigger)
    (h : AsyncInterrupt) (e : Error) (hh : p.async_interrupt = some h)
    (hr : h.tid ∈ w.running) (he : w.stopErr = some e)
    (hp : w.poisoned = false) :
    ((InputPin.set_interrupt w p trigger).1 = Outcome.err e)
  ∧ ((InputPin.set_interrupt w p trigger).2.2.1.events.triggers p.pin
      = w.events.triggers p.pin)
  ∧ (∀ t, Ev.syncReg p.pin t ∉ (InputPin.set_interrupt w p trigger).2.2.2)
  ∧ ((InputPin.set_interrupt w p trigger).2.1.async_interrupt = none)
  ∧ ((InputPin.set_async_interrupt w p trigger).1 = Outcome.err e)
  ∧ (∀ tid, Ev.spawn tid ∉ (InputPin.set_async_interrupt w p trigger).2.2.2)
  ∧ ((InputPin.set_async_interrupt w p trigger).2.1.async_interrupt = none) := by
  have hca := clear_async_of_running_err w p h e hh hr he
  have h1 := clear_interrupt_of_unpoisoned w p hp
  refine ⟨?_, ?_, ?_, ?_, ?_, ?_, ?_⟩
  · simp [InputPin.set_interrupt, hca]
  · simp [InputPin.set_interrupt, hca]
  · simp [InputPin.set_interrupt, hca]
  · simp [InputPin.set_interrupt, hca]
  · simp [InputPin.set_async_interrupt, h1, InputPin.clear_async_interrupt, hh,
          AsyncInterrupt.stop, AsyncInterrupt.dropHandle, hr, he]
  · simp [InputPin.set_async_interrupt, h1, InputPin.clear_async_interrupt, hh,
          AsyncInterrupt.stop, AsyncInterrupt.dropHandle, hr, he]
  · simp [InputPin.set_async_interrupt, h1, InputPin.clear_async_interrupt, hh,
          AsyncInterrupt.stop, AsyncInterrupt.dropHandle, hr, he]

/-- Witness for C3 (amended) at a concrete input: the stop-failure world and
the pin with the live handle. -/
theorem c3_witness :
    (InputPin.set_async_interrupt wStopFail pinLive Trigger.both).1
      = Outcome.err Error.threadStopFailure
  ∧ (InputPin.set_async_interrupt wStopFail pinLive Trigger.both).2.1.async_interrupt
      = none := by
  have h := c3_fail_closed wStopFail pinLive Trigger.both handle7
    Error.threadStopFailure rfl (by decide) rfl rfl
  exact ⟨h.2.2.2.2.1, h.2.2.2.2.2.2⟩

/-- Witness for C8 at a concrete input: the healthy world and the pin with a
live async handle. -/
theorem c8_witness :
    ((InputPin.clear_interrupt (InputPin.clear_interrupt wOk pinLive).2.2.1
        (InputPin.clear_interrupt wOk pinLive).2.1).1 = Outcome.ok ())
  ∧ (InputPin.clear_async_interrupt wOk { pinLive with async_interrupt := none }
      = (Except.ok (), { pinLive with async_interrupt := none }, wOk, [])) :=
  ⟨(c8_clear_idempotent wOk pinLive rfl).1,
   (c8_clear_idempotent wOk pinLive rfl).2.2.2.2.2.2⟩

/-- C2: at most one interrupt delivery mechanism is armed at a time — in
every call to `set_async_interrupt`, if a new runner is spawned then the
spawn is the last event of the call's trace, preceded by the deregistration
of any synchronous trigger (`clear_interrupt`) and by the stop signal to any
existing running asynchronous thread (`clear_async_interrupt`); and in every
call to `set_interrupt`, if the synchronous trigger is registered then the
registration is the last event, preceded by the stop signal to any existing
running asynchronous thread. -/
theorem c2_disarm_before_arm (w : World) (p : InputPin) (trigger : Trigger) :
    (∀ tid, Ev.spawn tid ∈ (InputPin.set_async_interrupt w p trigger).2.2.2 →
      ∃ pre, (InputPin.set_async_interrupt w p trigger).2.2.2
          = pre ++ [Ev.spawn tid]
        ∧ Ev.syncDereg p.pin ∈ pre
        ∧ ∀ h, p.async_interrupt = some h → h.tid ∈ w.running →
            Ev.stopSignal h.tid ∈ pre)
  ∧ (∀ t, Ev.syncReg p.pin t ∈ (InputPin.set_interrupt w p trigger).2.2.2 →
      ∃ pre, (InputPin.set_interrupt w p trigger).2.2.2
          = pre ++ [Ev.syncReg p.pin t]
        ∧ ∀ h, p.async_interrupt = some h → h.tid ∈ w.running →
            Ev.stopSignal h.tid ∈ pre) := by
  constructor
  · rcases hB : w.poisoned with _ | _
    · have h1 := clear_interrupt_of_unpoisoned w p hB
      rcases hh : p.async_interrupt with _ | h
      · rcases hsp : w.spawnErr with _ | e
        · have htr : (InputPin.set_async_interrupt w p trigger).2.2.2
              = [Ev.syncDereg p.pin, Ev.spawn w.nextTid] := by
            simp [InputPin.set_async_interrupt, h1, InputPin.clear_async_interrupt,
                  hh, AsyncInterrupt.new, hsp]
          intro tid hmem
          rw [htr] at hmem
          simp at hmem
          subst hmem
          refine ⟨[Ev.syncDereg p.pin], by simp [htr], by simp, ?_⟩
          intro h' hsome hrun
          exact Option.noConfusion hsome
        · intro tid hmem
          simp [InputPin.set_async_interrupt, h1, InputPin.clear_async_interrupt,
                hh, AsyncInterrupt.new, hsp] at hmem
      · by_cases hr : h.tid ∈ w.running
        · rcases he : w.stopErr with _ | e
          · rcases hsp : w.spawnErr with _ | e2
            · have htr : (InputPin.set_async_interrupt w p trigger).2.2.2
                  = [Ev.syncDereg p.pin, Ev.stopSignal h.tid, Ev.threadExit h.tid,
                     Ev.spawn w.nextTid] := by
                simp [InputPin.set_async_interrupt, h1,
                      InputPin.clear_async_interrupt, hh, AsyncInterrupt.stop,
                      AsyncInterrupt.dropHandle, hr, he, AsyncInterrupt.new, hsp,
                      tid_not_mem_filter]
              intro tid hmem
              rw [htr] at hmem
              simp at hmem
              subst hmem
              refine ⟨[Ev.syncDereg p.pin, Ev.stopSignal h.tid, Ev.threadExit h.tid],
                by simp [htr], by simp, ?_⟩
              intro h' hsome hrun
              injection hsome with hinj
              subst hinj
              simp
            · intro tid hmem
              simp [InputPin.set_async_interrupt, h1, InputPin.clear_async_interrupt,
                    hh, AsyncInterrupt.stop, AsyncInterrupt.dropHandle, hr, he,
                    AsyncInterrupt.new, hsp, tid_not_mem_filter] at hmem
          · intro tid hmem
            simp [InputPin.set_async_interrupt, h1, InputPin.clear_async_interrupt,
                  hh, AsyncInterrupt.stop, AsyncInterrupt.dropHandle, hr, he] at hmem
        · rcases hsp : w.spawnErr with _ | e
          · have htr : (InputPin.set_async_interrupt w p trigger).2.2.2
                = [Ev.syncDereg p.pin, Ev.spawn w.nextTid] := by
              simp [InputPin.set_async_interrupt, h1, InputPin.clear_async_interrupt,
                    hh, AsyncInterrupt.stop, AsyncInterrupt.dropHandle, hr,
                    AsyncInterrupt.new, hsp]
            intro tid hmem
            rw [htr] at hmem
            simp at hmem
            subst hmem
            refine ⟨[Ev.syncDereg p.pin], by simp [htr], by simp, ?_⟩
            intro h' hsome hrun
            injection hsome with hinj
            subst hinj
            exact absurd hrun hr
          · intro tid hmem
            simp [InputPin.set_async_interrupt, h1, InputPin.clear_async_interrupt,
                  hh, AsyncInterrupt.stop, AsyncInterrupt.dropHandle, hr,
                  AsyncInterrupt.new, hsp] at hmem
    · have hc := clear_interrupt_of_poisoned w p hB
      intro tid hmem
      simp [InputPin.set_async_interrupt, hc] at hmem
  · rcases hh : p.async_interrupt with _ | h
    · have hca := clear_async_of_none w p hh
      rcases hB : w.poisoned with _ | _
      · rcases hs : w.setIntErr with _ | e
        · have htr : (InputPin.set_interrupt w p trigger).2.2.2
              = [Ev.syncReg p.pin trigger] := by
            simp [InputPin.set_interrupt, hca, hB, EventLoop.set_interrupt, hs]
          intro t hmem
          rw [htr] at hmem
          simp at hmem
          subst hmem
          refine ⟨[], by simp [htr], ?_⟩
          intro h' hsome hrun
          exact Option.noConfusion hsome
        · intro t hmem
          simp [InputPin.set_interrupt, hca, hB, EventLoop.set_interrupt, hs] at hmem
      · intro t hmem
        simp [InputPin.set_interrupt, hca, hB] at hmem
    · by_cases hr : h.tid ∈ w.running
      · rcases he : w.stopErr with _ | e
        · have hca := clear_async_of_running_ok w p h hh hr he
          rcases hB : w.poisoned with _ | _
          · rcases hs : w.setIntErr with _ | e2
            · have htr : (InputPin.set_interrupt w p trigger).2.2.2
                  = [Ev.stopSignal h.tid, Ev.threadExit h.tid,
                     Ev.syncReg p.pin trigger] := by
                simp [InputPin.set_interrupt, hca, hB, EventLoop.set_interrupt, hs]
              intro t hmem
              rw [htr] at hmem
              simp at hmem
              subst hmem
              refine ⟨[Ev.stopSignal h.tid, Ev.threadExit h.tid],
                by simp [htr], ?_⟩
              intro h' hsome hrun
              injection hsome with hinj
              subst hinj
              simp
            · intro t hmem
              simp [InputPin.set_interrupt, hca, hB, EventLoop.set_interrupt,
                    hs] at hmem
          · intro t hmem
            simp [InputPin.set_interrupt, hca, hB] at hmem
        · have hca := clear_async_of_running_err w p h e hh hr he
          intro t hmem
          simp [InputPin.set_interrupt, hca] at hmem
      · have hca := clear_async_of_not_running w p h hh hr
        rcases hB : w.poisoned with _ | _
        · rcases hs : w.setIntErr with _ | e
          · have htr : (InputPin.set_interrupt w p trigger).2.2.2
                = [Ev.syncReg p.pin trigger] := by
              simp [InputPin.set_interrupt, hca, hB, EventLoop.set_interrupt, hs]
            intro t hmem
            rw [htr] at hmem
            simp at hmem
            subst hmem
            refine ⟨[], by simp [htr], ?_⟩
            intro h' hsome hrun
            injection hsome with hinj
            subst hinj
            exact absurd hrun hr
          · intro t hmem
            simp [InputPin.set_interrupt, hca, hB, EventLoop.set_interrupt,
                  hs] at hmem
        · intro t hmem
          simp [InputPin.set_interrupt, hca, hB] at hmem

/-- Witness for C2 at a concrete input: arming an asynchronous interrupt on
the pin with a previously running asynchronous thread first deregisters the
synchronous trigger and stops the old thread, then spawns thread 8. -/
theorem c2_witness :
    ∃ pre, (InputPin.set_async_interrupt wOk pinLive Trigger.both).2.2.2
        = pre ++ [Ev.spawn 8]
      ∧ Ev.syncDereg 4 ∈ pre
      ∧ Ev.stopSignal 7 ∈ pre := by
  obtain ⟨pre, hpre, hd, hs⟩ :=
    (c2_disarm_before_arm wOk pinLive Trigger.both).1 8 (by decide)
  exact ⟨pre, hpre, hd, hs handle7 rfl (by decide)⟩

end Rppal
